import Mathlib

/-!
Verification development for the basyx-go-components benchmark tooling.

Part 1 embeds the synthetic workload generator
(`internal/aasregistry/benchmark_results/benchmark.py`, function `main`).
Part 2 embeds the metrics pipeline
(`internal/submodelrepository/integration_tests/benchmark/plot_submodel_benchmark.py`
and `internal/aasregistry/benchmark_results/plotbenchmark.py`).

Modelling conventions:
* Python floats (durations, `time.perf_counter` readings) are modelled as `ℚ`.
* The seeded pseudo-random generator `random.Random(SEED)` is modelled as an
  abstract stream `Nat → Nat` consumed one value per `rng.choices` /
  `rng.choice` call, together with the current stream position; this captures
  exactly the property the code relies on: every draw is a deterministic
  function of the seed and of how many draws happened before it.
* The remote HTTP service is an oracle `Nat → NetOutcome` giving, for each
  iteration, either a response (ok flag and status code) or a raised
  transport exception.
* Wall-clock time: each iteration has oracle-given phase costs (body
  construction, pool sampling, network call, pool bookkeeping); the
  monotonic clock advances by the cost of each phase executed, in the order
  the source executes them.
-/

namespace Basyx

/-- Operation kinds of the generator, named as in `OP_WEIGHTS`
(benchmark.py lines 27-32): `post` = create, `get` = read-by-id,
`search_all` = list, `search_limit100` = paginated search. -/
inductive Op where
  | post
  | get
  | search_all
  | search_limit100
deriving DecidableEq, Repr

/-- Outcome of one network call: a response with its `ok` flag and status
code, or a raised transport exception with its message. -/
inductive NetOutcome where
  | resp (ok : Bool) (code : Nat)
  | exc (msg : String)
deriving DecidableEq, Repr

/-- Time (in seconds, as `ℚ`) spent in each phase of one iteration:
`body` = deep copy of the template plus fresh id generation (post only),
`sample` = pool sampling plus id encoding (get only),
`net` = the HTTP call itself,
`book` = pool bookkeeping after a successful post. -/
structure Costs where
  body : ℚ
  sample : ℚ
  net : ℚ
  book : ℚ
deriving DecidableEq, Repr

/-- Environment of one run: the seeded random stream, the per-iteration
network outcome, and the per-iteration phase costs. -/
structure Oracle where
  stream : Nat → Nat
  net : Nat → NetOutcome
  cost : Nat → Costs

/-- One log entry, mirroring the dict built at benchmark.py lines 361-367.
`LOG_REQUEST_DETAILS` is `False` (line 37), so the optional request/response
fields are never added and are omitted from the model. -/
structure Entry where
  iter : Nat
  op : Op
  code : Option Nat
  ok : Bool
  duration_ms : ℤ
deriving DecidableEq, Repr

/-- One outgoing HTTP request: method, URL and query parameters, plus the
fresh descriptor id placed in the body for a post. -/
structure HttpReq where
  method : String
  url : String
  params : List (String × String)
  bodyId : Option String
deriving DecidableEq, Repr

/-- Run state of the generator main loop: random-stream position, the two
identifier pools (benchmark.py lines 264-265), the in-memory log, the
requests issued so far, the error lines printed so far, and the monotonic
clock reading. -/
structure GenState where
  pos : Nat
  descriptor_pool : List String
  submodel_pool : List String
  logs : List Entry
  requests : List HttpReq
  console : List String
  clock : ℚ
deriving DecidableEq, Repr

/-- Target base URL (benchmark.py line 19). -/
def DISCOVERY_URL : String := "http://localhost:5004/shell-descriptors"

/-- Fresh descriptor id for iteration `i`, modelling
`f"https://example.org/aas/{uuid.uuid4()}"` (line 293); the OS-level UUID
is abstracted as the iteration number, which keeps ids distinct per run. -/
def mkDescId (i : Nat) : String := "https://example.org/aas/" ++ toString i

/-- Error line printed by the `except` handler (line 358); the timestamp
prefix is abstracted away. The periodic progress print (line 377) is a
separate unmodelled side print. -/
def errorLine (msg : String) : String := "Error: " ++ msg

/-- Truncation of a rational toward zero, modelling python `int(...)`
applied to a float (line 366). -/
def pyInt (q : ℚ) : ℤ := if q < 0 then -((-q).floor) else q.floor

/-- Alphabet of URL-safe base64 (RFC 4648 section 5). -/
def b64Alphabet : List Char :=
  "ABCDEFGHIJKLMNOPQRSTUVWXYZabcdefghijklmnopqrstuvwxyz0123456789-_".toList

/-- Character of the URL-safe base64 alphabet at index `n`. -/
def b64Char (n : Nat) : Char := b64Alphabet.getD n 'A'

/-- URL-safe base64 of a byte list, already with the trailing padding
removed (the source strips the `=` characters; the 1-byte and 2-byte
remainder groups below simply emit 2 and 3 characters). -/
def b64Groups : List Nat → List Char
  | [] => []
  | [a] => [b64Char (a / 4), b64Char (a % 4 * 16)]
  | [a, b] => [b64Char (a / 4), b64Char (a % 4 * 16 + b / 16), b64Char (b % 16 * 4)]
  | a :: b :: c :: rest =>
      b64Char (a / 4) :: b64Char (a % 4 * 16 + b / 16) ::
      b64Char (b % 16 * 4 + c / 64) :: b64Char (c % 64) :: b64Groups rest

/-- Models `url_b64_encode` (benchmark.py lines 80-81):
`base64.urlsafe_b64encode(s.encode()).decode().rstrip("=")`. Identifiers are
ASCII, so the UTF-8 bytes are the character code points. -/
def url_b64_encode (s : String) : String :=
  String.mk (b64Groups (s.toList.map Char.toNat))

/-- Models `rng.choices(ops, weights)[0]` (line 275) with
`ops = ["post", "get", "search_all", "search_limit100"]` and weights
`[0.4, 0.2, 0.2, 0.2]` (lines 27-32): one uniform draw from the stream is
mapped through the cumulative weights, so 4/10 of the residues select
`post` and 2/10 each select the other three operations. -/
def weightedPick (v : Nat) : Op :=
  if v % 10 < 4 then Op.post
  else if v % 10 < 6 then Op.get
  else if v % 10 < 8 then Op.search_all
  else Op.search_limit100

/-- Models `rng.choice(["search_all", "search_limit100"])` (line 278): a
uniform draw from the same stream picks one of the two search operations. -/
def uniformPick2 (v : Nat) : Op :=
  if v % 2 = 0 then Op.search_all else Op.search_limit100

/-- Operation selection for iteration `i` (benchmark.py lines 271-278):
during the prewarm phase the operation is forced to `post` and no draw is
consumed; otherwise one weighted draw is taken, and if it selects `get`
while the descriptor pool is empty, a second draw from the same stream
substitutes one of the two search operations. Returns the selected
operation and the new stream position. (`effective_prewarm =
max(0, min(PREWARM_ITERS, TOTAL_ITERS))`, line 254, equals `PREWARM_ITERS`
on the range of loop indices, so the test is `i < W` directly.) -/
def selOp (o : Oracle) (W i pos : Nat) (pool : List String) : Op × Nat :=
  if i < W then (Op.post, pos)
  else
    let op := weightedPick (o.stream pos)
    if op = Op.get ∧ pool = [] then (uniformPick2 (o.stream (pos + 1)), pos + 2)
    else (op, pos + 1)

/-- Request issued by the `post` branch (benchmark.py lines 301-304):
`session.post(DISCOVERY_URL, json=payload)` with the freshly generated
descriptor id in the body. -/
def postReq (i : Nat) : HttpReq :=
  { method := "POST", url := DISCOVERY_URL, params := [], bodyId := some (mkDescId i) }

/-- Request issued by the `get` branch (lines 319-324):
`session.get(f"{DISCOVERY_URL}/{encoded}")` for the sampled id. -/
def getReq (sampled : String) : HttpReq :=
  { method := "GET", url := DISCOVERY_URL ++ "/" ++ url_b64_encode sampled,
    params := [], bodyId := none }

/-- Request issued by the `search_all` branch (lines 333-336):
`session.get(DISCOVERY_URL)`, unfiltered. -/
def searchAllReq : HttpReq :=
  { method := "GET", url := DISCOVERY_URL, params := [], bodyId := none }

/-- Request issued by the `search_limit100` branch (lines 345-348):
`session.get(DISCOVERY_URL, params={"limit": 100})`. -/
def searchLimit100Req : HttpReq :=
  { method := "GET", url := DISCOVERY_URL, params := [("limit", "100")], bodyId := none }

/-- Execution of the selected operation for iteration `i`, mirroring the
`try`/`except` block of benchmark.py lines 284-374. `pos1` is the stream
position after operation selection. The clock is read into `t0` before the
`try` (line 284), advances with every phase executed inside it, and is read
again at line 360; hence `duration_ms = int((t1 - t0) * 1000)` covers body
construction, pool sampling and pool bookkeeping in addition to the
network call. On a transport exception the flags keep their initial values
`ok = False`, `code = None` (lines 285-286), the error is printed
(line 358) and the iteration still appends its entry (line 374). On a
successful post only the descriptor pool grows: the active
`payload_template = data` (line 220) carries no `submodelDescriptors`
key, so the guard at line 297 is false, the loop at lines 315-316 never
runs, and the submodel pool is never appended to. -/
def execOp (o : Oracle) (i : Nat) (op : Op) (pos1 : Nat) (s : GenState) : GenState :=
  let c := o.cost i
  let t0 := s.clock
  match op with
  | Op.post =>
    match o.net i with
    | NetOutcome.exc m =>
      let t1 := t0 + c.body + c.net
      { s with pos := pos1,
               requests := s.requests ++ [postReq i],
               console := s.console ++ [errorLine m],
               logs := s.logs ++ [{ iter := i, op := op, code := none, ok := false,
                                    duration_ms := pyInt ((t1 - t0) * 1000) }],
               clock := t1 }
    | NetOutcome.resp okb cd =>
      let t1 := t0 + c.body + c.net + (if okb then c.book else 0)
      { s with pos := pos1,
               descriptor_pool :=
                 if okb then s.descriptor_pool ++ [mkDescId i] else s.descriptor_pool,
               requests := s.requests ++ [postReq i],
               logs := s.logs ++ [{ iter := i, op := op, code := some cd, ok := okb,
                                    duration_ms := pyInt ((t1 - t0) * 1000) }],
               clock := t1 }
  | Op.get =>
    let sampled := s.descriptor_pool.getD (o.stream pos1 % s.descriptor_pool.length) ""
    let pos2 := pos1 + 1
    match o.net i with
    | NetOutcome.exc m =>
      let t1 := t0 + c.sample + c.net
      { s with pos := pos2,
               requests := s.requests ++ [getReq sampled],
               console := s.console ++ [errorLine m],
               logs := s.logs ++ [{ iter := i, op := op, code := none, ok := false,
                                    duration_ms := pyInt ((t1 - t0) * 1000) }],
               clock := t1 }
    | NetOutcome.resp okb cd =>
      let t1 := t0 + c.sample + c.net
      { s with pos := pos2,
               requests := s.requests ++ [getReq sampled],
               logs := s.logs ++ [{ iter := i, op := op, code := some cd, ok := okb,
                                    duration_ms := pyInt ((t1 - t0) * 1000) }],
               clock := t1 }
  | Op.search_all =>
    match o.net i with
    | NetOutcome.exc m =>
      let t1 := t0 + c.net
      { s with pos := pos1,
               requests := s.requests ++ [searchAllReq],
               console := s.console ++ [errorLine m],
               logs := s.logs ++ [{ iter := i, op := op, code := none, ok := false,
                                    duration_ms := pyInt ((t1 - t0) * 1000) }],
               clock := t1 }
    | NetOutcome.resp okb cd =>
      let t1 := t0 + c.net
      { s with pos := pos1,
               requests := s.requests ++ [searchAllReq],
               logs := s.logs ++ [{ iter := i, op := op, code := some cd, ok := okb,
                                    duration_ms := pyInt ((t1 - t0) * 1000) }],
               clock := t1 }
  | Op.search_limit100 =>
    match o.net i with
    | NetOutcome.exc m =>
      let t1 := t0 + c.net
      { s with pos := pos1,
               requests := s.requests ++ [searchLimit100Req],
               console := s.console ++ [errorLine m],
               logs := s.logs ++ [{ iter := i, op := op, code := none, ok := false,
                                    duration_ms := pyInt ((t1 - t0) * 1000) }],
               clock := t1 }
    | NetOutcome.resp okb cd =>
      let t1 := t0 + c.net
      { s with pos := pos1,
               requests := s.requests ++ [searchLimit100Req],
               logs := s.logs ++ [{ iter := i, op := op, code := some cd, ok := okb,
                                    duration_ms := pyInt ((t1 - t0) * 1000) }],
               clock := t1 }

/-- One full iteration of the benchmark loop (benchmark.py lines 270-377):
select the operation, then execute it. -/
def stepIter (o : Oracle) (W i : Nat) (s : GenState) : GenState :=
  let p := selOp o W i s.pos s.descriptor_pool
  execOp o i p.1 p.2 s

/-- Initial run state (benchmark.py lines 260-265). -/
def initState : GenState :=
  { pos := 0, descriptor_pool := [], submodel_pool := [], logs := [],
    requests := [], console := [], clock := 0 }

/-- The benchmark main loop: `N` iterations with prewarm count `W`,
folding `stepIter` over the iteration indices in order. -/
def runBench (o : Oracle) (N W : Nat) : GenState :=
  (List.range N).foldl (fun s i => stepIter o W i s) initState

/-- One parsed benchmark record as consumed by the plotting tools. Fields
mirror `r.get("iter")`, `r.get("op")`, `r.get("duration_ns")`,
`r.get("duration_ms")` and `r.get("ok", False)`: a `none` means the key is
absent from the JSON object, and a missing `ok` key behaves as `False`. -/
structure Rec where
  iter : Option Int
  op : Option String
  duration_ns : Option ℚ
  duration_ms : Option ℚ
  ok : Bool
deriving DecidableEq, Repr

/-- Truth of a record carrying at least one duration field. -/
def hasDur (r : Rec) : Bool := r.duration_ns.isSome || r.duration_ms.isSome

/-- Operation name with the `"unknown"` default, modelling
`r.get("op", "unknown")`. -/
def opOf (r : Rec) : String := r.op.getD "unknown"

/-- Models `convert_duration` (plot_submodel_benchmark.py lines 34-53) and
the identical inline conversion of plotbenchmark.py lines 45-62: a
nanosecond-labelled value is divided down to the chosen unit, a
millisecond-labelled value is first scaled to nanoseconds and then divided
down. Returns `none` exactly when both duration fields are absent (python
would raise a `TypeError` there, which no guarded caller reaches). -/
def convert_duration (dur_ns dur_ms : Option ℚ) (unit : String) : Option ℚ :=
  match dur_ns with
  | some v =>
    if unit = "us" then some (v / 1000)
    else if unit = "ms" then some (v / 1000000)
    else if unit = "s" then some (v / 1000000000)
    else some v
  | none =>
    dur_ms.map fun m =>
      let v := m * 1000000
      if unit = "us" then v / 1000
      else if unit = "ms" then v / 1000000
      else if unit = "s" then v / 1000000000
      else v

/-- Converted duration of a record. The no-duration case defaults to 0
here, whereas python raises a `TypeError`; callers that guard on `hasDur`
never reach it, and the one unguarded caller (the throughput plot, via
`opObservations`) is therefore only ever analysed under an explicit
hypothesis that every record of the operation carries a duration field,
the domain on which this total model agrees with the program. Outside
that domain the program crashes (modelled by `runPipeline`). -/
def recDur (r : Rec) (unit : String) : ℚ :=
  (convert_duration r.duration_ns r.duration_ms unit).getD 0

/-- Sorted distinct iteration values, modelling
`sorted({r.get("iter") for r in records if "iter" in r})`
(plotbenchmark.py line 29, plot_submodel_benchmark.py lines 91 and 192). -/
def distinctIters (records : List Rec) : List Int :=
  ((records.filterMap Rec.iter).dedup).mergeSort (fun a b => a ≤ b)

/-- Truth of the key `(it, op)` being present in the `dur_map` dict built
at plotbenchmark.py lines 36-64 (same loop at plot_submodel_benchmark.py
lines 97-107): present exactly when some record carries that iteration,
that operation name (with default), and at least one duration field. -/
def durKeyPresent (records : List Rec) (it : Int) (op : String) : Bool :=
  records.any fun r => r.iter == some it && opOf r == op && hasDur r

/-- Value of `dur_map[(it, op)]`: the sum of the converted durations of all
records with that iteration and operation (the loop accumulates with
`dur_map.get((it, op), 0.0) + val`); 0 when the key is absent. -/
def durMapVal (records : List Rec) (unit : String) (it : Int) (op : String) : ℚ :=
  ((records.filter fun r => r.iter == some it && opOf r == op && hasDur r).map
    (fun r => recDur r unit)).sum

/-- Running sums from an accumulator, mirroring the python loop
`cumulative += v; series.append(cumulative)`. -/
def prefixSumsFrom (acc : ℚ) : List ℚ → List ℚ
  | [] => []
  | x :: xs => (acc + x) :: prefixSumsFrom (acc + x) xs

/-- Running (prefix) sums of a list, in order, starting from 0. -/
def prefixSums (l : List ℚ) : List ℚ := prefixSumsFrom 0 l

/-- Cumulative runtime series of one operation over the sorted distinct
iterations (plotbenchmark.py lines 67-72, plot_submodel_benchmark.py lines
109-114): a running sum where iterations without that operation contribute
zero. -/
def cumulativeSeries (records : List Rec) (unit : String) (op : String) : List ℚ :=
  prefixSums ((distinctIters records).map (fun it => durMapVal records unit it op))

/-- Per-operation raw points used for averages and trend
(plotbenchmark.py lines 75-78, plot_submodel_benchmark.py lines 116-119):
the entries of `dur_map` for that operation whose value is strictly
positive, sorted by iteration. The keys of `dur_map` are unique per
`(it, op)` pair and every key iteration occurs in `distinctIters`, so
walking the sorted distinct iterations yields exactly
`sorted(per_op_points[op])`. -/
def per_op_points (records : List Rec) (unit : String) (op : String) : List (Int × ℚ) :=
  (distinctIters records).filterMap fun it =>
    let v := durMapVal records unit it op
    if durKeyPresent records it op && decide (0 < v) then some (it, v) else none

/-- Arithmetic mean of a list of rationals (`sum(ys) / len(ys)`,
plotbenchmark.py line 97; `np.mean`, plot_submodel_benchmark.py line 64). -/
def listMean (l : List ℚ) : ℚ := l.sum / l.length

/-- Trend computation shared by `compute_stats`
(plot_submodel_benchmark.py lines 69-78) and the inline loop of
plotbenchmark.py lines 100-116: with fewer than two points no trend; the
least-squares slope is `cov / var_x` over the centered sums, guarded by
`var_x > 0`; the slope is divided by the mean and scaled to a percentage,
guarded by `avg > 0`. -/
def compute_trend (points : List (ℚ × ℚ)) : Option ℚ :=
  let xs := points.map Prod.fst
  let ys := points.map Prod.snd
  let avg := listMean ys
  if 2 ≤ points.length then
    let mean_x := listMean xs
    let mean_y := listMean ys
    let var_x := (xs.map (fun x => (x - mean_x) ^ 2)).sum
    if 0 < var_x then
      let cov_xy := ((xs.zip ys).map (fun p => (p.1 - mean_x) * (p.2 - mean_y))).sum
      let slope := cov_xy / var_x
      if 0 < avg then some (slope / avg * 100) else none
    else none
  else none

/-- Per-operation average reported in the chart label
(plotbenchmark.py lines 86-98): `None` when the point set is empty. -/
def avg_by_op (records : List Rec) (unit : String) (op : String) : Option ℚ :=
  let pts := per_op_points records unit op
  if pts.isEmpty then none else some (listMean (pts.map Prod.snd))

/-- Per-operation trend reported in the chart label
(plotbenchmark.py lines 86-116, plot_submodel_benchmark.py line 125 via
`compute_stats(sorted(per_op_points[op]))`): computed over the
iteration-indexed positive points, `None` when the point set is empty. -/
def trend_by_op (records : List Rec) (unit : String) (op : String) : Option ℚ :=
  let pts := per_op_points records unit op
  if pts.isEmpty then none
  else compute_trend (pts.map (fun p => ((p.1 : ℚ), p.2)))

/-- Durations of one operation in record order, modelling the `durations`
list built in `generate_summary_report` (plot_submodel_benchmark.py lines
344-350): records whose `op` field equals `op` (missing `op` never
matches) and which carry a duration field. -/
def summary_durations (records : List Rec) (op : String) (unit : String) : List ℚ :=
  (records.filter fun r => r.op == some op).filterMap
    fun r => convert_duration r.duration_ns r.duration_ms unit

/-- Trend printed in the summary report (plot_submodel_benchmark.py lines
361-368): `compute_stats([(i, d) for i, d in enumerate(durations)])`, so
the x-coordinates are the 0-based positions in the duration list, not the
iteration values of the records. -/
def summaryTrend (records : List Rec) (op : String) (unit : String) : Option ℚ :=
  let durations := summary_durations records op unit
  compute_trend ((List.range durations.length).zip durations |>.map
    (fun p => ((p.1 : ℚ), p.2)))

/-- Lexicographic comparison on (iteration, duration) pairs, the order
used by python `list.sort()` on 2-tuples. -/
def obsLe (a b : Int × ℚ) : Bool :=
  a.1 < b.1 || (a.1 == b.1 && a.2 ≤ b.2)

/-- Observations of one operation for the throughput plot
(plot_submodel_benchmark.py lines 202-205): `(iter, duration in seconds)`
for every record of that operation carrying an iteration, sorted; the
conversion target is hard-coded to seconds. `mergeSort` is a stable sort,
as is python `sort()`. The `convert_duration` call at line 203 is
unguarded, so a record of the operation with an iteration but no duration
field makes the program raise a `TypeError` (see `runPipeline`); this
total definition maps such a record to 0 s instead, and is therefore only
used in theorems under the hypothesis that every such record carries a
duration field. -/
def opObservations (records : List Rec) (op : String) : List (Int × ℚ) :=
  ((records.filter fun r => r.op == some op && r.iter.isSome).map
    (fun r => (r.iter.getD 0, recDur r "s"))).mergeSort obsLe

/-- Rolling window size (plot_submodel_benchmark.py line 196):
`max(10, len(iters) // 50)` over the distinct iteration values of the
whole input. -/
def windowSize (records : List Rec) : Nat :=
  max 10 ((distinctIters records).length / 50)

/-- Rolling throughput series of one operation
(plot_submodel_benchmark.py lines 202-221): operations with fewer
observations than the window are skipped; otherwise, for every window of
`windowSize` consecutive observations (sliding by one), if the window's
total duration is positive, one point `(last iteration of the window,
windowSize / total)` is produced, and otherwise the window yields no
point. -/
def throughputSeries (records : List Rec) (op : String) : List (Int × ℚ) :=
  let ws := windowSize records
  let obs := opObservations records op
  if obs.length < ws then []
  else
    (List.range (obs.length - ws + 1)).filterMap fun i =>
      let window := (obs.drop i).take ws
      let total := (window.map Prod.snd).sum
      if 0 < total then some ((window.map Prod.fst).getLastD 0, (ws : ℚ) / total)
      else none

/-- Top-level JSON shapes relevant to `load_records`: an array of records,
an object (with the value under its `"records"` key, if any), or any other
value. -/
inductive JVal where
  | jlist (rs : List Rec)
  | jdict (recordsField : Option JVal)
  | jother

/-- Models `load_records` (plot_submodel_benchmark.py lines 23-31,
plotbenchmark.py lines 8-15): an object is unwrapped through its
`"records"` key first; whatever remains must be an array, otherwise a
`ValueError` with a descriptive message is raised. -/
def load_records : JVal → Except String (List Rec)
  | JVal.jlist rs => Except.ok rs
  | JVal.jdict (some (JVal.jlist rs)) => Except.ok rs
  | JVal.jdict (some _) => Except.error "Expected a JSON array of log records."
  | JVal.jdict none => Except.error "Expected a JSON array of log records."
  | JVal.jother => Except.error "Expected a JSON array of log records."

/-- Output artifacts of the metrics pipeline, in the order `main` writes
them (plot_submodel_benchmark.py lines 407-412). -/
def summaryFile : String := "00_summary_report.txt"

/-- Chart artifact names (plot_submodel_benchmark.py lines 148, 184, 233,
275, 324). -/
def chartFiles : List String :=
  ["01_cumulative_runtime.png", "02_latency_distribution.png",
   "03_throughput_over_time.png", "04_success_rate.png",
   "05_percentile_comparison.png"]

/-- Truth of `plot_percentile_comparison` raising a `KeyError` (lines
296-310): `percentile_data` only gets an entry for an operation with at
least one duration-carrying record (matched by `r.get("op") == op`, so a
record with a missing `op` never contributes durations), yet the
comprehensions at lines 308-310 index `percentile_data[op]` for every
member of `ops` — which is the set of `r.get("op", "unknown")` defaults.
The lookup fails exactly when some record's (defaulted) operation name
has no duration-carrying record with that literal `op` value. -/
def percentileKeyError (records : List Rec) : Bool :=
  records.any fun r =>
    !(records.any fun q => q.op == some (opOf r) && hasDur q)

/-- Models the `main` entry point of plot_submodel_benchmark.py (lines
383-414) as the list of files written and the error terminating the run,
if any. `generate_summary_report` runs first and always writes the summary
file; `plot_cumulative_runtime` then raises when no record carries an
iteration value (line 95); `plot_throughput_over_time` raises a
`TypeError` when some record with an operation and an iteration carries no
duration field (`convert_duration` is called unguarded at line 203), with
the first two charts already written at that point;
`plot_percentile_comparison` raises a `KeyError` when some operation name
in the ops set has no duration-carrying record (see
`percentileKeyError`), with the first four charts already written at that
point; otherwise all five charts are written and the run ends without
error. -/
def runPipeline (input : JVal) : List String × Option String :=
  match load_records input with
  | Except.error m => ([], some m)
  | Except.ok records =>
    if (distinctIters records).isEmpty then
      ([summaryFile], some "No records with iter found.")
    else if records.any (fun r => r.op.isSome && r.iter.isSome && !(hasDur r)) then
      ([summaryFile, "01_cumulative_runtime.png", "02_latency_distribution.png"],
       some "TypeError")
    else if percentileKeyError records then
      ([summaryFile, "01_cumulative_runtime.png", "02_latency_distribution.png",
        "03_throughput_over_time.png", "04_success_rate.png"],
       some "KeyError")
    else (summaryFile :: chartFiles, none)

/-- Nanoseconds per unit, the scale factor of the claimed exact
conversion: 1 for "ns", 10^3 for "us", 10^6 for "ms", 10^9 for "s". -/
def nsPerUnit (unit : String) : ℚ :=
  if unit = "us" then 1000
  else if unit = "ms" then 1000000
  else if unit = "s" then 1000000000
  else 1

/-- Trend formalised from the claim's words, for comparison with the
code: the ordinary least-squares slope of duration against the record's
iteration index, over the operation's raw `(iteration, duration)` points,
divided by the mean duration and expressed as a percentage. -/
def specTrendAgainstIteration (records : List Rec) (op : String) (unit : String) : Option ℚ :=
  compute_trend
    (((records.filter fun r => r.op == some op && r.iter.isSome && hasDur r).map
      (fun r => ((r.iter.getD 0 : ℚ), recDur r unit))))

/-- Closed-form ordinary least-squares slope
`(n * Σxy - Σx * Σy) / (n * Σx^2 - (Σx)^2)`, an independent formulation of
the slope used to check the code's centered-sums computation. -/
def olsSlopeClosedForm (points : List (ℚ × ℚ)) : ℚ :=
  let n : ℚ := points.length
  let sx := (points.map Prod.fst).sum
  let sy := (points.map Prod.snd).sum
  let sxy := (points.map fun p => p.1 * p.2).sum
  let sxx := (points.map fun p => p.1 ^ 2).sum
  (n * sxy - sx * sy) / (n * sxx - sx ^ 2)

/-- Elapsed time between the two clock reads of one iteration, as a
function of the phase costs, the executed operation, and the recorded
`ok` flag (the bookkeeping phase runs only after a successful post). -/
def elapsedFor (c : Costs) (op : Op) (okFlag : Bool) : ℚ :=
  match op with
  | Op.post => c.body + c.net + (if okFlag then c.book else 0)
  | Op.get => c.sample + c.net
  | Op.search_all => c.net
  | Op.search_limit100 => c.net

theorem runBench_succ (o : Oracle) (N W : Nat) :
    runBench o (N + 1) W = stepIter o W N (runBench o N W) := by
  unfold runBench
  rw [List.range_succ, List.foldl_append, List.foldl_cons, List.foldl_nil]

/-- Recorded `ok` flag of iteration `i`: the response's flag, or `False`
when the call raised (the initial value of line 285 is never updated). -/
def entryOkFlag (o : Oracle) (i : Nat) : Bool :=
  match o.net i with
  | NetOutcome.resp b _ => b
  | NetOutcome.exc _ => false

/-- Recorded status code of iteration `i`: the response's code, or `None`
when the call raised (the initial value of line 286 is never updated). -/
def entryCode (o : Oracle) (i : Nat) : Option Nat :=
  match o.net i with
  | NetOutcome.resp _ c => some c
  | NetOutcome.exc _ => none

/-- The log entry iteration `i` appends when executing `op`. -/
def entryOf (o : Oracle) (i : Nat) (op : Op) : Entry :=
  { iter := i, op := op, code := entryCode o i, ok := entryOkFlag o i,
    duration_ms := pyInt (elapsedFor (o.cost i) op (entryOkFlag o i) * 1000) }

theorem execOp_logs (o : Oracle) (i : Nat) (op : Op) (pos1 : Nat) (s : GenState) :
    (execOp o i op pos1 s).logs = s.logs ++ [entryOf o i op] := by
  cases op <;> rcases h : o.net i with ⟨okb, cd⟩ | m <;>
    simp only [execOp, h, entryOf, entryCode, entryOkFlag, elapsedFor,
      Bool.false_eq_true, if_false] <;>
    ring_nf

theorem execOp_clock (o : Oracle) (i : Nat) (op : Op) (pos1 : Nat) (s : GenState) :
    (execOp o i op pos1 s).clock = s.clock + elapsedFor (o.cost i) op (entryOkFlag o i) := by
  cases op <;> rcases h : o.net i with ⟨okb, cd⟩ | m <;>
    simp only [execOp, h, entryOkFlag, elapsedFor, Bool.false_eq_true, if_false] <;>
    ring

theorem execOp_pools (o : Oracle) (i : Nat) (op : Op) (pos1 : Nat) (s : GenState) :
    (execOp o i op pos1 s).descriptor_pool =
      (if op = Op.post ∧ entryOkFlag o i then s.descriptor_pool ++ [mkDescId i]
       else s.descriptor_pool) ∧
    (execOp o i op pos1 s).submodel_pool = s.submodel_pool := by
  cases op <;> rcases h : o.net i with ⟨okb, cd⟩ | m <;>
    simp [execOp, h, entryOkFlag]

theorem execOp_console_exc (o : Oracle) (i : Nat) (op : Op) (pos1 : Nat) (s : GenState)
    (m : String) (h : o.net i = NetOutcome.exc m) :
    (execOp o i op pos1 s).console = s.console ++ [errorLine m] := by
  cases op <;> simp [execOp, h]

theorem execOp_requests_searchLimit (o : Oracle) (i : Nat) (pos1 : Nat) (s : GenState) :
    (execOp o i Op.search_limit100 pos1 s).requests = s.requests ++ [searchLimit100Req] := by
  rcases h : o.net i with ⟨okb, cd⟩ | m <;> simp [execOp, h]

theorem stepIter_logs (o : Oracle) (W i : Nat) (s : GenState) :
    (stepIter o W i s).logs = s.logs ++ [entryOf o i (selOp o W i s.pos s.descriptor_pool).1] := by
  unfold stepIter
  exact execOp_logs o i _ _ s

theorem runBench_logs_length (o : Oracle) (N W : Nat) :
    (runBench o N W).logs.length = N := by
  induction N with
  | zero => rfl
  | succ n ih =>
    rw [runBench_succ, stepIter_logs, List.length_append, ih]
    rfl

theorem runBench_pool_sizes (o : Oracle) (N W : Nat) :
    (runBench o N W).descriptor_pool.length =
      (runBench o N W).logs.countP (fun e => e.op == Op.post && e.ok) := by
  induction N with
  | zero => rfl
  | succ n ih =>
    rw [runBench_succ]
    unfold stepIter
    obtain ⟨hd, _⟩ := execOp_pools o n (selOp o W n (runBench o n W).pos
      (runBench o n W).descriptor_pool).1 (selOp o W n (runBench o n W).pos
      (runBench o n W).descriptor_pool).2 (runBench o n W)
    rw [execOp_logs, hd, List.countP_append]
    set op := (selOp o W n (runBench o n W).pos (runBench o n W).descriptor_pool).1 with hop
    by_cases hc : op = Op.post ∧ entryOkFlag o n
    · have hone : List.countP (fun e => e.op == Op.post && e.ok) [entryOf o n op] = 1 := by
        simp [List.countP, List.countP.go, entryOf, hc.1, hc.2]
      simp only [if_pos hc, List.length_append, List.length_singleton, hone]
      rw [ih]
    · have hzero : List.countP (fun e => e.op == Op.post && e.ok) [entryOf o n op] = 0 := by
        simp only [List.countP, List.countP.go, entryOf]
        rcases Decidable.em (op = Op.post) with h1 | h1
        · have h2 : entryOkFlag o n = false := by
            cases hfl : entryOkFlag o n
            · rfl
            · exact absurd ⟨h1, hfl⟩ hc
          simp [h1, h2]
        · simp [beq_eq_false_iff_ne.mpr h1]
      simp only [if_neg hc, hzero, Nat.add_zero]
      exact ih

theorem runBench_submodel_nil (o : Oracle) (N W : Nat) :
    (runBench o N W).submodel_pool = [] := by
  induction N with
  | zero => rfl
  | succ n ih =>
    rw [runBench_succ]
    unfold stepIter
    rw [(execOp_pools o n (selOp o W n (runBench o n W).pos
      (runBench o n W).descriptor_pool).1 (selOp o W n (runBench o n W).pos
      (runBench o n W).descriptor_pool).2 (runBench o n W)).2, ih]

theorem execOp_pos (o : Oracle) (i : Nat) (op : Op) (pos1 : Nat) (s : GenState) :
    (execOp o i op pos1 s).pos = (if op = Op.get then pos1 + 1 else pos1) := by
  cases op <;> rcases h : o.net i with ⟨okb, cd⟩ | m <;> simp [execOp, h]

theorem stepIter_congr (o₁ o₂ : Oracle) (W i : Nat) (s₁ s₂ : GenState)
    (hstream : o₁.stream = o₂.stream) (hok : entryOkFlag o₁ i = entryOkFlag o₂ i)
    (hpos : s₁.pos = s₂.pos) (hdesc : s₁.descriptor_pool = s₂.descriptor_pool)
    (hsub : s₁.submodel_pool = s₂.submodel_pool)
    (hlog : s₁.logs.map Entry.op = s₂.logs.map Entry.op) :
    (stepIter o₁ W i s₁).pos = (stepIter o₂ W i s₂).pos ∧
    (stepIter o₁ W i s₁).descriptor_pool = (stepIter o₂ W i s₂).descriptor_pool ∧
    (stepIter o₁ W i s₁).submodel_pool = (stepIter o₂ W i s₂).submodel_pool ∧
    (stepIter o₁ W i s₁).logs.map Entry.op = (stepIter o₂ W i s₂).logs.map Entry.op := by
  unfold stepIter
  have hsel : selOp o₁ W i s₁.pos s₁.descriptor_pool =
      selOp o₂ W i s₂.pos s₂.descriptor_pool := by
    simp only [selOp, hstream, hpos, hdesc]
  rw [hsel]
  refine ⟨?_, ?_, ?_, ?_⟩
  · rw [execOp_pos, execOp_pos]
  · rw [(execOp_pools o₁ i _ _ s₁).1, (execOp_pools o₂ i _ _ s₂).1, hok, hdesc]
  · rw [(execOp_pools o₁ i _ _ s₁).2, (execOp_pools o₂ i _ _ s₂).2, hsub]
  · rw [execOp_logs, execOp_logs]
    simp only [List.map_append, List.map_cons, List.map_nil, entryOf, hlog]

theorem runBench_congr (o₁ o₂ : Oracle) (N W : Nat)
    (hstream : o₁.stream = o₂.stream)
    (hok : ∀ j, entryOkFlag o₁ j = entryOkFlag o₂ j) :
    (runBench o₁ N W).pos = (runBench o₂ N W).pos ∧
    (runBench o₁ N W).descriptor_pool = (runBench o₂ N W).descriptor_pool ∧
    (runBench o₁ N W).submodel_pool = (runBench o₂ N W).submodel_pool ∧
    (runBench o₁ N W).logs.map Entry.op = (runBench o₂ N W).logs.map Entry.op := by
  induction N with
  | zero => exact ⟨rfl, rfl, rfl, rfl⟩
  | succ n ih =>
    rw [runBench_succ, runBench_succ]
    exact stepIter_congr o₁ o₂ W n _ _ hstream (hok n) ih.1 ih.2.1 ih.2.2.1 ih.2.2.2

/-- Operation selected (after prewarm forcing and fallback substitution)
at iteration `i` of a run with prewarm count `W`. -/
def opAt (o : Oracle) (W i : Nat) : Op :=
  (selOp o W i (runBench o i W).pos (runBench o i W).descriptor_pool).1

/-- C1: past the warm-up, when the weighted draw selects read while the
pool is empty, the generator substitutes the next value of the same
seeded stream, mapped uniformly onto the two search operations and never
`get`; and for a fixed stream and a fixed sequence of per-iteration
success flags the whole operation-type sequence is reproducible. -/
theorem C1_read_fallback_same_stream :
    (∀ (o : Oracle) (W i : Nat), W ≤ i →
      (runBench o i W).descriptor_pool = [] →
      weightedPick (o.stream (runBench o i W).pos) = Op.get →
      (runBench o (i + 1) W).logs =
        (runBench o i W).logs ++
          [entryOf o i (uniformPick2 (o.stream ((runBench o i W).pos + 1)))] ∧
      (uniformPick2 (o.stream ((runBench o i W).pos + 1)) = Op.search_all ∨
       uniformPick2 (o.stream ((runBench o i W).pos + 1)) = Op.search_limit100) ∧
      uniformPick2 (o.stream ((runBench o i W).pos + 1)) ≠ Op.get) ∧
    (∀ (o₁ o₂ : Oracle) (N W : Nat), o₁.stream = o₂.stream →
      (∀ j, entryOkFlag o₁ j = entryOkFlag o₂ j) →
      (runBench o₁ N W).logs.map Entry.op = (runBench o₂ N W).logs.map Entry.op) := by
  constructor
  · intro o W i hW hpool hdraw
    have hsel : selOp o W i (runBench o i W).pos (runBench o i W).descriptor_pool =
        (uniformPick2 (o.stream ((runBench o i W).pos + 1)), (runBench o i W).pos + 2) := by
      simp [selOp, Nat.not_lt.mpr hW, hpool, hdraw]
    refine ⟨?_, ?_, ?_⟩
    · rw [runBench_succ, stepIter_logs, hsel]
    · by_cases hv : o.stream ((runBench o i W).pos + 1) % 2 = 0
      · left; simp [uniformPick2, hv]
      · right; simp [uniformPick2, hv]
    · by_cases hv : o.stream ((runBench o i W).pos + 1) % 2 = 0 <;>
        simp [uniformPick2, hv]
  · intro o₁ o₂ N W hstream hok
    exact (runBench_congr o₁ o₂ N W hstream hok).2.2.2

/-- Oracle for the C1 witness: the first draw selects `get` (residue 4),
the fallback draw (residue 0) selects `search_all`; the network always
succeeds. -/
def oC1 : Oracle :=
  { stream := fun p => if p = 0 then 4 else 0,
    net := fun _ => NetOutcome.resp true 201,
    cost := fun _ => { body := 0, sample := 0, net := 0, book := 0 } }

theorem C1_read_fallback_same_stream_witness :
    (0 : Nat) ≤ 0 ∧ (runBench oC1 1 0).logs.map Entry.op = [Op.search_all] := by
  have h := C1_read_fallback_same_stream.1 oC1 0 0 (Nat.le_refl 0) rfl rfl
  refine ⟨Nat.le_refl 0, ?_⟩
  rw [h.1]
  with_unfolding_all rfl

/-- C2: the descriptor pool grows only by an append immediately after a
successful create, is never shrunk, is untouched by read and search
operations and by failed creates, and its final size equals the number of
log records with `op = post` and `ok = true`. Sub-resource identifiers
are kept out of this pool: they belong to the separate submodel pool
(benchmark.py line 265), which in this program stays empty for the whole
run, because the active `payload_template = data` (line 220) contains no
`submodelDescriptors`, so the loop at lines 315-316 never appends. -/
theorem C2_pool_append_only (o : Oracle) (N W : Nat) :
    ((runBench o N W).descriptor_pool.length =
      (runBench o N W).logs.countP (fun e => e.op == Op.post && e.ok)) ∧
    (∃ t, (runBench o (N + 1) W).descriptor_pool =
      (runBench o N W).descriptor_pool ++ t) ∧
    (∀ i, opAt o W i = Op.post → entryOkFlag o i = true →
      (runBench o (i + 1) W).descriptor_pool =
        (runBench o i W).descriptor_pool ++ [mkDescId i]) ∧
    (∀ i, opAt o W i = Op.post → entryOkFlag o i = false →
      (runBench o (i + 1) W).descriptor_pool = (runBench o i W).descriptor_pool) ∧
    (∀ i, opAt o W i ≠ Op.post →
      (runBench o (i + 1) W).descriptor_pool = (runBench o i W).descriptor_pool) ∧
    (runBench o N W).submodel_pool = [] := by
  refine ⟨runBench_pool_sizes o N W, ?_, ?_, ?_, ?_, runBench_submodel_nil o N W⟩
  · rw [runBench_succ]
    unfold stepIter
    rcases execOp_pools o N _ (selOp o W N (runBench o N W).pos
      (runBench o N W).descriptor_pool).2 (runBench o N W) with ⟨hd, _⟩
    rw [hd]
    split
    · exact ⟨[mkDescId N], rfl⟩
    · exact ⟨[], by rw [List.append_nil]⟩
  · intro i hpost hok
    rw [runBench_succ]
    unfold stepIter
    rcases execOp_pools o i _ (selOp o W i (runBench o i W).pos
      (runBench o i W).descriptor_pool).2 (runBench o i W) with ⟨hd, _⟩
    rw [hd, if_pos ⟨hpost, hok⟩]
  · intro i hpost hok
    rw [runBench_succ]
    unfold stepIter
    rcases execOp_pools o i _ (selOp o W i (runBench o i W).pos
      (runBench o i W).descriptor_pool).2 (runBench o i W) with ⟨hd, _⟩
    have hcond : ¬((selOp o W i (runBench o i W).pos
        (runBench o i W).descriptor_pool).1 = Op.post ∧ entryOkFlag o i = true) := by
      intro hc
      rw [hc.2] at hok
      exact Bool.true_eq_false.mp hok
    rw [hd, if_neg hcond]
  · intro i hpost
    rw [runBench_succ]
    unfold stepIter
    rcases execOp_pools o i _ (selOp o W i (runBench o i W).pos
      (runBench o i W).descriptor_pool).2 (runBench o i W) with ⟨hd, _⟩
    have hcond : ¬((selOp o W i (runBench o i W).pos
        (runBench o i W).descriptor_pool).1 = Op.post ∧ entryOkFlag o i = true) :=
      fun hc => hpost hc.1
    rw [hd, if_neg hcond]

/-- Oracle for the C2 and C3 witnesses: every draw selects `post`
(residue 0); the network raises on iteration 1 and succeeds otherwise. -/
def oW1 : Oracle :=
  { stream := fun _ => 0,
    net := fun j => if j = 1 then NetOutcome.exc "boom" else NetOutcome.resp true 201,
    cost := fun _ => { body := 0, sample := 0, net := 0, book := 0 } }

theorem C2_pool_append_only_witness :
    ((runBench oW1 3 0).descriptor_pool.length =
      (runBench oW1 3 0).logs.countP (fun e => e.op == Op.post && e.ok)) ∧
    (runBench oW1 3 0).descriptor_pool.length = 2 ∧
    (runBench oW1 1 0).descriptor_pool = [mkDescId 0] ∧
    (runBench oW1 3 0).submodel_pool = [] := by
  refine ⟨(C2_pool_append_only oW1 3 0).1, ?_, ?_,
    (C2_pool_append_only oW1 3 0).2.2.2.2.2⟩
  · with_unfolding_all rfl
  · have h := (C2_pool_append_only oW1 3 0).2.2.1 0
      (by with_unfolding_all rfl) (by with_unfolding_all rfl)
    rw [h]
    with_unfolding_all rfl

/-- C3: when the network call of iteration `i` raises a transport error,
that iteration still appends exactly one record, with `ok = false` and no
status code, the error message is printed, both identifier pools are left
unchanged, and the run still completes all `N` iterations with one record
each. -/
theorem C3_transport_error_isolated (o : Oracle) (N W i : Nat) (m : String)
    (hexc : o.net i = NetOutcome.exc m) :
    (runBench o (i + 1) W).logs =
      (runBench o i W).logs ++ [entryOf o i (opAt o W i)] ∧
    (entryOf o i (opAt o W i)).ok = false ∧
    (entryOf o i (opAt o W i)).code = none ∧
    (runBench o (i + 1) W).console =
      (runBench o i W).console ++ [errorLine m] ∧
    (runBench o (i + 1) W).descriptor_pool = (runBench o i W).descriptor_pool ∧
    (runBench o (i + 1) W).submodel_pool = (runBench o i W).submodel_pool ∧
    (runBench o N W).logs.length = N := by
  have hflag : entryOkFlag o i = false := by
    simp [entryOkFlag, hexc]
  have hcond : ¬((selOp o W i (runBench o i W).pos
      (runBench o i W).descriptor_pool).1 = Op.post ∧ entryOkFlag o i = true) := by
    intro hc
    rw [hflag] at hc
    exact Bool.false_ne_true hc.2
  refine ⟨?_, ?_, ?_, ?_, ?_, ?_, runBench_logs_length o N W⟩
  · rw [runBench_succ, stepIter_logs]
    exact rfl
  · simp [entryOf, hflag]
  · simp [entryOf, entryCode, hexc]
  · rw [runBench_succ]
    unfold stepIter
    exact execOp_console_exc o i _ _ (runBench o i W) m hexc
  · rw [runBench_succ]
    unfold stepIter
    rw [(execOp_pools o i _ _ (runBench o i W)).1, if_neg hcond]
  · rw [runBench_succ]
    unfold stepIter
    rw [(execOp_pools o i _ _ (runBench o i W)).2]

theorem C3_transport_error_isolated_witness :
    oW1.net 1 = NetOutcome.exc "boom" ∧
    (runBench oW1 2 0).console = [errorLine "boom"] ∧
    (runBench oW1 2 0).descriptor_pool = (runBench oW1 1 0).descriptor_pool ∧
    (runBench oW1 2 0).logs.length = 2 := by
  have h := C3_transport_error_isolated oW1 2 0 1 "boom" rfl
  refine ⟨rfl, ?_, h.2.2.2.2.1, h.2.2.2.2.2.2⟩
  rw [h.2.2.2.1]
  with_unfolding_all rfl

/-- Oracle for the C4 counterexample: iteration 0 is a forced prewarm
post (so the pool is non-empty afterwards), iteration 1 draws residue 8,
which selects `search_limit100`; the network always succeeds. -/
def oC4 : Oracle :=
  { stream := fun _ => 8,
    net := fun _ => NetOutcome.resp true 201,
    cost := fun _ => { body := 0, sample := 0, net := 0, book := 0 } }

/-- C4 counterexample: in a run whose pool is non-empty, the paginated
search request issued carries no cursor parameter at all — its query is
exactly `limit=100` — contradicting the claim that a cursor sampled from
the pool accompanies the page-size parameter. -/
theorem C4_counterexample_no_cursor :
    (runBench oC4 2 1).descriptor_pool = [mkDescId 0] ∧
    (runBench oC4 2 1).requests = [postReq 0, searchLimit100Req] ∧
    searchLimit100Req.params = [("limit", "100")] ∧
    (searchLimit100Req.params.any fun p => p.1 == "cursor") = false := by
  refine ⟨?_, ?_, rfl, ?_⟩
  · with_unfolding_all rfl
  · with_unfolding_all rfl
  · with_unfolding_all rfl

/-- C4 (amended): every paginated-search iteration issues
`GET DISCOVERY_URL` with query exactly `limit=100`; the request is a
constant, independent of the pool contents, and never carries a cursor
parameter. -/
theorem C4_amended_search_request_limit_only (o : Oracle) (W i : Nat)
    (h : opAt o W i = Op.search_limit100) :
    (runBench o (i + 1) W).requests =
      (runBench o i W).requests ++ [searchLimit100Req] ∧
    searchLimit100Req.method = "GET" ∧
    searchLimit100Req.url = DISCOVERY_URL ∧
    searchLimit100Req.params = [("limit", "100")] ∧
    (searchLimit100Req.params.any fun p => p.1 == "cursor") = false := by
  refine ⟨?_, rfl, rfl, rfl, by with_unfolding_all rfl⟩
  rw [runBench_succ]
  simp only [stepIter]
  rw [show (selOp o W i (runBench o i W).pos
        (runBench o i W).descriptor_pool).1 = Op.search_limit100 from h]
  exact execOp_requests_searchLimit o i _ (runBench o i W)

theorem C4_amended_search_request_limit_only_witness :
    opAt oC4 1 1 = Op.search_limit100 ∧
    (runBench oC4 2 1).requests =
      (runBench oC4 1 1).requests ++ [searchLimit100Req] := by
  have hop : opAt oC4 1 1 = Op.search_limit100 := by with_unfolding_all rfl
  exact ⟨hop, (C4_amended_search_request_limit_only oC4 1 1 hop).1⟩

theorem elapsedFor_nonneg (c : Costs) (op : Op) (b : Bool)
    (h1 : 0 ≤ c.body) (h2 : 0 ≤ c.sample) (h3 : 0 ≤ c.net) (h4 : 0 ≤ c.book) :
    0 ≤ elapsedFor c op b := by
  cases op <;> simp only [elapsedFor]
  · cases b
    · simpa using add_nonneg h1 h3
    · simp only [if_pos rfl]
      exact add_nonneg (add_nonneg h1 h3) h4
  · exact add_nonneg h2 h3
  · exact h3
  · exact h3

/-- Oracle for the C5 counterexample: a single prewarm post whose body
construction takes 5 ms, network call 10 ms and pool bookkeeping 3 ms. -/
def oC5 : Oracle :=
  { stream := fun _ => 0,
    net := fun _ => NetOutcome.resp true 201,
    cost := fun _ => { body := 5/1000, sample := 0, net := 10/1000, book := 3/1000 } }

/-- C5 counterexample: the recorded duration of the create operation is
18 ms, not the 10 ms of the network call alone — the clock is read before
the body is constructed (line 284) and after the pool bookkeeping
(line 360), so the measured interval is not strictly the network call. -/
theorem C5_counterexample_duration_includes_setup :
    (runBench oC5 1 1).logs.map Entry.duration_ms = [18] ∧
    pyInt ((oC5.cost 0).net * 1000) = 10 ∧
    (18 : ℤ) ≠ 10 := by
  refine ⟨?_, ?_, by decide⟩
  · with_unfolding_all rfl
  · with_unfolding_all rfl

/-- C5 (amended): the measured interval of iteration `i` spans the whole
`try` block: for a successful create it is body construction plus network
call plus pool bookkeeping, for a read it is pool sampling plus network
call, for the searches the network call alone; the recorded value is the
elapsed time truncated to whole milliseconds, and with nonnegative phase
costs the clock is monotone across the iteration. -/
theorem C5_amended_timing_spans_try_block (o : Oracle) (W i : Nat) :
    ((runBench o (i + 1) W).logs =
      (runBench o i W).logs ++ [entryOf o i (opAt o W i)]) ∧
    ((entryOf o i (opAt o W i)).duration_ms =
      pyInt (elapsedFor (o.cost i) (opAt o W i) (entryOkFlag o i) * 1000)) ∧
    ((runBench o (i + 1) W).clock =
      (runBench o i W).clock +
        elapsedFor (o.cost i) (opAt o W i) (entryOkFlag o i)) ∧
    (∀ c : Costs, elapsedFor c Op.post true = c.body + c.net + c.book) ∧
    (∀ c : Costs, elapsedFor c Op.get true = c.sample + c.net) ∧
    (0 ≤ (o.cost i).body → 0 ≤ (o.cost i).sample → 0 ≤ (o.cost i).net →
      0 ≤ (o.cost i).book →
      (runBench o i W).clock ≤ (runBench o (i + 1) W).clock) := by
  have hclock : (runBench o (i + 1) W).clock =
      (runBench o i W).clock +
        elapsedFor (o.cost i) (opAt o W i) (entryOkFlag o i) := by
    rw [runBench_succ]
    exact execOp_clock o i _ _ (runBench o i W)
  refine ⟨?_, rfl, hclock, ?_, ?_, ?_⟩
  · rw [runBench_succ, stepIter_logs]
    exact rfl
  · intro c; simp [elapsedFor]
  · intro c; simp [elapsedFor]
  · intro h1 h2 h3 h4
    rw [hclock]
    exact le_add_of_nonneg_right (elapsedFor_nonneg (o.cost i) _ _ h1 h2 h3 h4)

theorem C5_amended_timing_spans_try_block_witness :
    (runBench oC5 1 1).clock =
      (runBench oC5 0 1).clock +
        elapsedFor (oC5.cost 0) (opAt oC5 1 0) (entryOkFlag oC5 0) ∧
    (runBench oC5 0 1).clock ≤ (runBench oC5 1 1).clock := by
  have h := C5_amended_timing_spans_try_block oC5 1 0
  refine ⟨h.2.2.1, h.2.2.2.2.2 ?_ ?_ ?_ ?_⟩ <;> · with_unfolding_all decide

/-- C9: whichever duration field a record carries is converted exactly
(rational arithmetic, no rounding) into the chosen unit: a
nanosecond-labelled value is divided by the nanoseconds-per-unit factor,
a millisecond-labelled value is scaled to nanoseconds and then divided;
in particular `durationNanos = 1_000_000` gives exactly `1.0` under ms and
exactly `0.001` under s. -/
theorem C9_unit_conversion_exact :
    (∀ (v : ℚ) (dms : Option ℚ),
      convert_duration (some v) dms "ns" = some (v / nsPerUnit "ns") ∧
      convert_duration (some v) dms "us" = some (v / nsPerUnit "us") ∧
      convert_duration (some v) dms "ms" = some (v / nsPerUnit "ms") ∧
      convert_duration (some v) dms "s" = some (v / nsPerUnit "s")) ∧
    (∀ m : ℚ,
      convert_duration none (some m) "ns" = some (m * 1000000 / nsPerUnit "ns") ∧
      convert_duration none (some m) "us" = some (m * 1000000 / nsPerUnit "us") ∧
      convert_duration none (some m) "ms" = some (m * 1000000 / nsPerUnit "ms") ∧
      convert_duration none (some m) "s" = some (m * 1000000 / nsPerUnit "s")) ∧
    convert_duration (some 1000000) none "ms" = some 1 ∧
    convert_duration (some 1000000) none "s" = some (1 / 1000) := by
  refine ⟨?_, ?_, ?_, ?_⟩
  · intro v dms
    refine ⟨?_, ?_, ?_, ?_⟩ <;> simp [convert_duration, nsPerUnit]
  · intro m
    refine ⟨?_, ?_, ?_, ?_⟩ <;> simp [convert_duration, nsPerUnit]
  · simp [convert_duration]
  · simp [convert_duration]
    norm_num

/-- Record without an iteration field, used to exercise the
no-iteration failure path of the pipeline. -/
def c8NoIterRecord : Rec :=
  { iter := none, op := some "post", duration_ns := none,
    duration_ms := some 1, ok := true }

/-- C8 counterexample: on an input that is a well-shaped array whose
records carry no iteration field, the pipeline does terminate with a
descriptive error, but the textual summary report has already been
written — partial output exists, contradicting the claim that no summary
report is written. -/
theorem C8_counterexample_summary_written :
    runPipeline (JVal.jlist [c8NoIterRecord]) =
      ([summaryFile], some "No records with iter found.") ∧
    (runPipeline (JVal.jlist [c8NoIterRecord])).1 ≠ [] := by
  have h : runPipeline (JVal.jlist [c8NoIterRecord]) =
      ([summaryFile], some "No records with iter found.") := by
    with_unfolding_all rfl
  exact ⟨h, by rw [h]; exact List.cons_ne_nil _ _⟩

/-- C8 (amended): a bare array and an object wrapping the array under the
`records` key are both accepted; any other top-level shape makes the
invocation terminate with the descriptive shape error before any output
is produced; an accepted input none of whose records carries the
iteration field terminates with the descriptive iteration error, but only
after the textual summary report has been written — no chart file is
produced in that case, yet the summary report is. -/
theorem C8_amended_shape_and_iter_errors :
    (∀ rs : List Rec, load_records (JVal.jlist rs) = Except.ok rs) ∧
    (∀ rs : List Rec,
      load_records (JVal.jdict (some (JVal.jlist rs))) = Except.ok rs) ∧
    (load_records (JVal.jdict none) =
      Except.error "Expected a JSON array of log records.") ∧
    (load_records JVal.jother =
      Except.error "Expected a JSON array of log records.") ∧
    (∀ (input : JVal) (m : String), load_records input = Except.error m →
      runPipeline input = ([], some m)) ∧
    (∀ rs : List Rec, distinctIters rs = [] →
      runPipeline (JVal.jlist rs) =
        ([summaryFile], some "No records with iter found.")) := by
  refine ⟨fun rs => rfl, fun rs => rfl, rfl, rfl, ?_, ?_⟩
  · intro input m h
    unfold runPipeline
    rw [h]
  · intro rs h
    unfold runPipeline
    rw [show load_records (JVal.jlist rs) = Except.ok rs from rfl]
    simp [h]

theorem C8_amended_shape_and_iter_errors_witness :
    runPipeline (JVal.jdict none) =
      ([], some "Expected a JSON array of log records.") ∧
    runPipeline (JVal.jlist [c8NoIterRecord]) =
      ([summaryFile], some "No records with iter found.") := by
  refine ⟨C8_amended_shape_and_iter_errors.2.2.2.2.1 (JVal.jdict none) _ rfl, ?_⟩
  exact C8_amended_shape_and_iter_errors.2.2.2.2.2 [c8NoIterRecord]
    (by with_unfolding_all rfl)

theorem prefixSumsFrom_replicate_zero (n : Nat) (acc : ℚ) :
    prefixSumsFrom acc (List.replicate n 0) = List.replicate n acc := by
  induction n generalizing acc with
  | zero => rfl
  | succ k ih => simp [List.replicate_succ, prefixSumsFrom, ih]

/-- C10: a zero-converted-duration observation is present in the
per-(iteration, operation) map (its key exists, contributing zero), but
the per-operation point set keeps only strictly positive values; hence an
operation all of whose records convert to zero has an empty point set,
reports neither average nor trend, and contributes an all-zero cumulative
series — even though its records exist. -/
theorem C10_zero_duration_excluded_from_stats
    (records : List Rec) (unit op : String) :
    (∀ p ∈ per_op_points records unit op, 0 < p.2) ∧
    (∀ r ∈ records, ∀ it : Int, r.iter = some it → opOf r = op →
      hasDur r = true → durKeyPresent records it op = true) ∧
    ((∀ r ∈ records, opOf r = op → recDur r unit = 0) →
      per_op_points records unit op = [] ∧
      avg_by_op records unit op = none ∧
      trend_by_op records unit op = none ∧
      cumulativeSeries records unit op =
        List.replicate (distinctIters records).length 0) := by
  refine ⟨?_, ?_, ?_⟩
  · intro p hp
    rcases List.mem_filterMap.mp hp with ⟨it, _, heq⟩
    dsimp only at heq
    split at heq
    · rename_i hcond
      cases heq
      exact of_decide_eq_true (Bool.and_elim_right hcond)
    · exact absurd heq (by simp)
  · intro r hr it hit hop hdur
    unfold durKeyPresent
    rw [List.any_eq_true]
    exact ⟨r, hr, by simp [hit, hop, hdur]⟩
  · intro h0
    have hzero : ∀ it : Int, durMapVal records unit it op = 0 := by
      intro it
      unfold durMapVal
      apply List.sum_eq_zero
      intro x hx
      rcases List.mem_map.mp hx with ⟨r, hr, rfl⟩
      have hmem := List.mem_filter.mp hr
      have hcond := hmem.2
      simp only [Bool.and_eq_true, beq_iff_eq] at hcond
      exact h0 r hmem.1 hcond.1.2
    have hpts : per_op_points records unit op = [] := by
      unfold per_op_points
      rw [List.filterMap_eq_nil_iff]
      intro it _
      simp [hzero it]
    refine ⟨hpts, ?_, ?_, ?_⟩
    · unfold avg_by_op
      rw [hpts]
      rfl
    · unfold trend_by_op
      rw [hpts]
      rfl
    · unfold cumulativeSeries prefixSums
      have hmap : (distinctIters records).map
          (fun it => durMapVal records unit it op) =
          List.replicate (distinctIters records).length 0 := by
        rw [List.eq_replicate_iff]
        exact ⟨by rw [List.length_map], by
          intro b hb
          rcases List.mem_map.mp hb with ⟨it, _, rfl⟩
          exact hzero it⟩
      rw [hmap, prefixSumsFrom_replicate_zero]

/-- Record whose only duration field converts to zero. -/
def c10rec : Rec :=
  { iter := some 0, op := some "get", duration_ns := none,
    duration_ms := some 0, ok := true }

theorem C10_zero_duration_excluded_from_stats_witness :
    per_op_points [c10rec] "ms" "get" = [] ∧
    avg_by_op [c10rec] "ms" "get" = none ∧
    trend_by_op [c10rec] "ms" "get" = none ∧
    ([c10rec] : List Rec).length = 1 := by
  have h := (C10_zero_duration_excluded_from_stats [c10rec] "ms" "get").2.2 ?_
  · exact ⟨h.1, h.2.1, h.2.2.1, rfl⟩
  · intro r hr hop
    rcases List.mem_singleton.mp hr with rfl
    with_unfolding_all rfl

theorem sum_map_sub_sq (xs : List ℚ) (c : ℚ) :
    (xs.map (fun x => (x - c) ^ 2)).sum =
      (xs.map (fun x => x ^ 2)).sum - 2 * c * xs.sum + xs.length * c ^ 2 := by
  induction xs with
  | nil => simp
  | cons x rest ih =>
    simp only [List.map_cons, List.sum_cons, List.length_cons, ih]
    push_cast
    ring

theorem sum_map_centered_mul (ps : List (ℚ × ℚ)) (a b : ℚ) :
    (ps.map (fun p => (p.1 - a) * (p.2 - b))).sum =
      (ps.map (fun p => p.1 * p.2)).sum - a * (ps.map Prod.snd).sum -
        b * (ps.map Prod.fst).sum + ps.length * a * b := by
  induction ps with
  | nil => simp
  | cons p rest ih =>
    simp only [List.map_cons, List.sum_cons, List.length_cons, ih]
    push_cast
    ring

theorem compute_trend_none_iff (points : List (ℚ × ℚ))
    (hnn : ∀ y ∈ points.map Prod.snd, 0 ≤ y) :
    compute_trend points = none ↔
      points.length < 2 ∨
      ((points.map Prod.fst).map
        (fun x => (x - listMean (points.map Prod.fst)) ^ 2)).sum = 0 ∨
      listMean (points.map Prod.snd) = 0 := by
  have hvar : 0 ≤ ((points.map Prod.fst).map
      (fun x => (x - listMean (points.map Prod.fst)) ^ 2)).sum := by
    apply List.sum_nonneg
    intro x hx
    rcases List.mem_map.mp hx with ⟨y, _, rfl⟩
    positivity
  have havg : 0 ≤ listMean (points.map Prod.snd) := by
    unfold listMean
    exact div_nonneg (List.sum_nonneg hnn) (by positivity)
  simp only [compute_trend]
  split_ifs with h1 h2 h3
  · refine iff_of_false (by simp) ?_
    push_neg
    exact ⟨h1, ne_of_gt h2, ne_of_gt h3⟩
  · exact iff_of_true rfl (Or.inr (Or.inr (le_antisymm (not_lt.mp h3) havg)))
  · exact iff_of_true rfl (Or.inr (Or.inl (le_antisymm (not_lt.mp h2) hvar)))
  · exact iff_of_true rfl (Or.inl (Nat.not_le.mp h1))

theorem compute_trend_some_eq (points : List (ℚ × ℚ)) (t : ℚ)
    (h : compute_trend points = some t) :
    t = olsSlopeClosedForm points / listMean (points.map Prod.snd) * 100 := by
  have hzip : (points.map Prod.fst).zip (points.map Prod.snd) = points := by
    rw [List.zip_map']
    simp
  simp only [compute_trend] at h
  split_ifs at h with h1 h2 h3
  rw [Option.some_inj] at h
  subst h
  have hlen : 0 < points.length := lt_of_lt_of_le (by norm_num) h1
  have hn : ((points.length : ℚ)) ≠ 0 := Nat.cast_ne_zero.mpr (by omega)
  have hmx : listMean (points.map Prod.fst) =
      (points.map Prod.fst).sum / (points.length : ℚ) := by
    simp [listMean, List.length_map]
  have hmy : listMean (points.map Prod.snd) =
      (points.map Prod.snd).sum / (points.length : ℚ) := by
    simp [listMean, List.length_map]
  set sx := (points.map Prod.fst).sum with hsx
  set sy := (points.map Prod.snd).sum with hsy
  set sxy := (points.map fun p => p.1 * p.2).sum with hsxy
  set sxx := (points.map fun p => p.1 ^ 2).sum with hsxx
  set n : ℚ := (points.length : ℚ) with hnd
  have hvarx : ((points.map Prod.fst).map
      (fun x => (x - listMean (points.map Prod.fst)) ^ 2)).sum =
      sxx - 2 * (sx / n) * sx + n * (sx / n) ^ 2 := by
    rw [sum_map_sub_sq, hmx]
    congr 1
    · congr 1
      rw [List.map_map]
      exact rfl
    · rw [List.length_map]
  have hcov : (((points.map Prod.fst).zip (points.map Prod.snd)).map
      (fun p => (p.1 - listMean (points.map Prod.fst)) *
        (p.2 - listMean (points.map Prod.snd)))).sum =
      sxy - (sx / n) * sy - (sy / n) * sx + n * (sx / n) * (sy / n) := by
    rw [hzip, sum_map_centered_mul, hmx, hmy]
  rw [hvarx, hcov, hmy]
  have hvar2 : 0 < sxx - 2 * (sx / n) * sx + n * (sx / n) ^ 2 := by
    rw [hvarx] at h2
    exact h2
  have hden : n * sxx - sx ^ 2 = n * (sxx - 2 * (sx / n) * sx + n * (sx / n) ^ 2) := by
    field_simp
    ring
  have hnum : n * sxy - sx * sy =
      n * (sxy - (sx / n) * sy - (sy / n) * sx + n * (sx / n) * (sy / n)) := by
    field_simp
    ring
  have hslope : (sxy - (sx / n) * sy - (sy / n) * sx + n * (sx / n) * (sy / n)) /
      (sxx - 2 * (sx / n) * sx + n * (sx / n) ^ 2) =
      (n * sxy - sx * sy) / (n * sxx - sx ^ 2) := by
    rw [hnum, hden, mul_div_mul_left _ _ hn]
  rw [hslope]
  unfold olsSlopeClosedForm
  rfl

/-- Records of one operation at iterations 0 and 10, with durations 1 and
2 ms: the positional and the iteration-indexed least-squares trends
disagree on this input. -/
def c7recs : List Rec :=
  [{ iter := some 0, op := some "get", duration_ns := none,
     duration_ms := some 1, ok := true },
   { iter := some 10, op := some "get", duration_ns := none,
     duration_ms := some 2, ok := true }]

/-- C7 counterexample: the summary report's trend for this input is
200/3 percent per iteration, while the least-squares slope of duration
against the records' iteration indices normalized by the mean is 20/3
percent — the report enumerates the durations positionally (0, 1, ...)
instead of using the iteration values (0, 10). -/
theorem C7_counterexample_summary_positional :
    summaryTrend c7recs "get" "ms" = some (200 / 3) ∧
    specTrendAgainstIteration c7recs "get" "ms" = some (20 / 3) ∧
    ((200 : ℚ) / 3) ≠ 20 / 3 := by
  refine ⟨?_, ?_, by norm_num⟩
  · with_unfolding_all rfl
  · with_unfolding_all rfl

/-- C7 (amended): over nonnegative durations, a trend is not-applicable
exactly when there are fewer than two points, the x-values have zero
variance, or the mean duration is zero; when defined it equals the
closed-form ordinary least-squares slope divided by the mean duration,
as a percentage. The chart tools compute it over the operation's
iteration-indexed positive points, but the textual summary report
computes it over positionally enumerated durations (x = 0, 1, 2, ...),
not over the records' iteration indices. -/
theorem C7_amended_trend_ols :
    (∀ points : List (ℚ × ℚ), (∀ y ∈ points.map Prod.snd, 0 ≤ y) →
      (compute_trend points = none ↔
        points.length < 2 ∨
        ((points.map Prod.fst).map
          (fun x => (x - listMean (points.map Prod.fst)) ^ 2)).sum = 0 ∨
        listMean (points.map Prod.snd) = 0)) ∧
    (∀ (points : List (ℚ × ℚ)) (t : ℚ), compute_trend points = some t →
      t = olsSlopeClosedForm points / listMean (points.map Prod.snd) * 100) ∧
    (∀ (records : List Rec) (op unit : String) (t : ℚ),
      summaryTrend records op unit = some t →
      t = olsSlopeClosedForm
            (((List.range (summary_durations records op unit).length).zip
              (summary_durations records op unit)).map
              (fun p => ((p.1 : ℚ), p.2))) /
          listMean (summary_durations records op unit) * 100) ∧
    (∀ (records : List Rec) (unit op : String) (t : ℚ),
      trend_by_op records unit op = some t →
      t = olsSlopeClosedForm
            ((per_op_points records unit op).map (fun p => ((p.1 : ℚ), p.2))) /
          listMean ((per_op_points records unit op).map Prod.snd) * 100) := by
  refine ⟨compute_trend_none_iff, compute_trend_some_eq, ?_, ?_⟩
  · intro records op unit t h
    unfold summaryTrend at h
    have heq := compute_trend_some_eq _ t h
    have hsnd : (((List.range (summary_durations records op unit).length).zip
        (summary_durations records op unit)).map
        (fun p => ((p.1 : ℚ), p.2))).map Prod.snd =
        summary_durations records op unit := by
      rw [List.map_map]
      exact List.map_snd_zip _ _ (by rw [List.length_range])
    rw [hsnd] at heq
    exact heq
  · intro records unit op t h
    simp only [trend_by_op] at h
    split_ifs at h
    have heq := compute_trend_some_eq _ t h
    have hsnd : ((per_op_points records unit op).map
        (fun p => ((p.1 : ℚ), p.2))).map Prod.snd =
        (per_op_points records unit op).map Prod.snd := by
      rw [List.map_map]
      exact rfl
    rw [hsnd] at heq
    exact heq

theorem C7_amended_trend_ols_witness :
    summaryTrend c7recs "get" "ms" = some (200 / 3) ∧
    ((200 : ℚ) / 3) =
      olsSlopeClosedForm
          (((List.range (summary_durations c7recs "get" "ms").length).zip
            (summary_durations c7recs "get" "ms")).map
            (fun p => ((p.1 : ℚ), p.2))) /
        listMean (summary_durations c7recs "get" "ms") * 100 := by
  have hs : summaryTrend c7recs "get" "ms" = some (200 / 3) := by
    with_unfolding_all rfl
  exact ⟨hs, C7_amended_trend_ols.2.2.1 c7recs "get" "ms" (200 / 3) hs⟩

theorem drop_take_eq_map_range {α : Type} (l : List α) (d : α) (i ws : Nat)
    (h : i + ws ≤ l.length) :
    (l.drop i).take ws = (List.range ws).map (fun j => l.getD (i + j) d) := by
  apply List.ext_getElem
  · rw [List.length_take, List.length_drop, List.length_map, List.length_range]
    omega
  · intro j h1 h2
    have hj : j < ws := by
      rw [List.length_take, List.length_drop] at h1
      omega
    have hij : i + j < l.length := by omega
    rw [List.getElem_take, List.getElem_drop, List.getElem_map, List.getElem_range,
      List.getD_eq_getElem l d hij]

theorem getLastD_map_range {α : Type} (g : Nat → α) (w : Nat) (hw : 0 < w) (d : α) :
    ((List.range w).map g).getLastD d = g (w - 1) := by
  obtain ⟨k, rfl⟩ : ∃ k, w = k + 1 := ⟨w - 1, by omega⟩
  rw [List.range_succ, List.map_append]
  simp

theorem obsLe_total (a b : Int × ℚ) : obsLe a b || obsLe b a := by
  simp only [obsLe, Bool.or_eq_true, Bool.and_eq_true, decide_eq_true_eq, beq_iff_eq]
  rcases lt_trichotomy a.1 b.1 with h | h | h
  · exact Or.inl (Or.inl h)
  · rcases le_total a.2 b.2 with h2 | h2
    · exact Or.inl (Or.inr ⟨h, h2⟩)
    · exact Or.inr (Or.inr ⟨h.symm, h2⟩)
  · exact Or.inr (Or.inl h)

theorem obsLe_trans (a b c : Int × ℚ) (h1 : obsLe a b) (h2 : obsLe b c) : obsLe a c := by
  simp only [obsLe, Bool.or_eq_true, Bool.and_eq_true, decide_eq_true_eq,
    beq_iff_eq] at h1 h2 ⊢
  rcases h1 with h1 | ⟨h1e, h1q⟩
  · rcases h2 with h2 | ⟨h2e, h2q⟩
    · exact Or.inl (lt_trans h1 h2)
    · exact Or.inl (h2e ▸ h1)
  · rcases h2 with h2 | ⟨h2e, h2q⟩
    · exact Or.inl (h1e ▸ h2)
    · exact Or.inr ⟨h1e.trans h2e, le_trans h1q h2q⟩

/-- Record at iteration `k` of the C6 inputs, with a zero duration. -/
def c6rec (k : Nat) : Rec :=
  { iter := some (k : Int), op := some "get", duration_ns := none,
    duration_ms := some 0, ok := true }

/-- Ten zero-duration observations of one operation at iterations 0-9. -/
def c6recs : List Rec := (List.range 10).map c6rec

/-- C6 counterexample: this input has exactly one full window (ten
observations, window size ten), yet the throughput series is empty: the
code keeps a window only when its total duration is positive, so a window
of zero durations yields no point, contradicting the claim that each
window of `windowSize` consecutive observations yields a throughput
value. -/
theorem C6_counterexample_zero_total_window :
    windowSize c6recs = 10 ∧
    (opObservations c6recs "get").length = 10 ∧
    (opObservations c6recs "get").length - windowSize c6recs + 1 = 1 ∧
    throughputSeries c6recs "get" = [] := by
  refine ⟨?_, ?_, ?_, ?_⟩ <;> with_unfolding_all rfl

theorem convert_isSome (dns dms : Option ℚ) (u : String)
    (h : (dns.isSome || dms.isSome) = true) :
    (convert_duration dns dms u).isSome := by
  cases dns with
  | some v =>
    unfold convert_duration
    split_ifs <;> rfl
  | none =>
    cases dms with
    | none => simp at h
    | some m => simp [convert_duration]

/-- C6 (amended): on inputs where every record of the operation that
carries an iteration also carries a duration field (on any other input
the program raises a `TypeError` at the unguarded `convert_duration`
call, plot_submodel_benchmark.py line 203, and computes no series at
all), the rolling-throughput computation uses window size
`max(10, distinct-iterations / 50)`; an operation with fewer observations
than the window size produces no series; otherwise the window slides one
observation at a time over the chronologically sorted observations and
each window whose total duration (in seconds) is positive yields the
point `(last iteration of the window, windowSize / total)`, while a
window with non-positive total yields no point. The observation sequence
is a permutation of the operation's raw records, sorted by the
lexicographic (iteration, duration) order, and every observation is the
exact seconds conversion of one of the operation's records. -/
theorem C6_amended_rolling_throughput (records : List Rec) (op : String)
    (hdur : ∀ r ∈ records, r.op = some op → r.iter.isSome = true →
      hasDur r = true) :
    windowSize records = max 10 ((distinctIters records).length / 50) ∧
    ((opObservations records op).length < windowSize records →
      throughputSeries records op = []) ∧
    (windowSize records ≤ (opObservations records op).length →
      throughputSeries records op =
        (List.range ((opObservations records op).length -
            windowSize records + 1)).filterMap
          (fun i =>
            if 0 < ((List.range (windowSize records)).map
                (fun j => ((opObservations records op).getD (i + j) (0, 0)).2)).sum then
              some ((((opObservations records op).getD
                  (i + windowSize records - 1) (0, 0)).1),
                (windowSize records : ℚ) /
                  ((List.range (windowSize records)).map
                    (fun j => ((opObservations records op).getD (i + j) (0, 0)).2)).sum)
            else none)) ∧
    (opObservations records op).Perm
      ((records.filter fun r => r.op == some op && r.iter.isSome).map
        (fun r => (r.iter.getD 0, recDur r "s"))) ∧
    List.Pairwise (fun a b => obsLe a b = true) (opObservations records op) ∧
    (∀ p ∈ opObservations records op, ∃ r ∈ records,
      r.op = some op ∧ r.iter = some p.1 ∧
      convert_duration r.duration_ns r.duration_ms "s" = some p.2) := by
  refine ⟨rfl, ?_, ?_, ?_, ?_, ?_⟩
  · intro h
    unfold throughputSeries
    rw [if_pos h]
  · intro h
    unfold throughputSeries
    rw [if_neg (not_lt.mpr h)]
    apply List.filterMap_congr
    intro i hi
    have hmem : i < (opObservations records op).length - windowSize records + 1 :=
      List.mem_range.mp hi
    have hle : i + windowSize records ≤ (opObservations records op).length := by
      omega
    have hw : 0 < windowSize records :=
      lt_of_lt_of_le (by norm_num) (le_max_left 10 _)
    dsimp only
    rw [drop_take_eq_map_range (opObservations records op) (0, 0) i
      (windowSize records) hle, List.map_map, List.map_map]
    have hfst : ((List.range (windowSize records)).map
        (Prod.fst ∘ fun j => (opObservations records op).getD (i + j) (0, 0))).getLastD 0 =
        (((opObservations records op).getD (i + windowSize records - 1) (0, 0)).1) := by
      rw [getLastD_map_range _ _ hw]
      have : i + (windowSize records - 1) = i + windowSize records - 1 := by omega
      simp only [Function.comp]
      rw [this]
    rw [hfst]
    exact rfl
  · exact List.mergeSort_perm _ _
  · exact List.sorted_mergeSort obsLe_trans obsLe_total _
  · intro p hp
    have hperm := List.mergeSort_perm ((records.filter fun r =>
        r.op == some op && r.iter.isSome).map
        (fun r => (r.iter.getD 0, recDur r "s"))) obsLe
    have hp' := hperm.mem_iff.mp hp
    rcases List.mem_map.mp hp' with ⟨r, hr, rfl⟩
    have hf := List.mem_filter.mp hr
    have hcond := hf.2
    simp only [Bool.and_eq_true, beq_iff_eq] at hcond
    obtain ⟨hop, hiter⟩ := hcond
    have hd : hasDur r = true := hdur r hf.1 hop hiter
    have hsome : (convert_duration r.duration_ns r.duration_ms "s").isSome := by
      unfold hasDur at hd
      exact convert_isSome _ _ _ hd
    refine ⟨r, hf.1, hop, ?_, ?_⟩
    · cases hit : r.iter with
      | none => rw [hit] at hiter; exact absurd hiter (by simp)
      | some x => exact rfl
    · rcases Option.isSome_iff_exists.mp hsome with ⟨v, hv⟩
      rw [hv]
      simp [recDur, hv]

/-- Record at iteration `k` with a 1 ms duration. -/
def c6recB (k : Nat) : Rec :=
  { iter := some (k : Int), op := some "get", duration_ns := none,
    duration_ms := some 1, ok := true }

/-- Ten 1 ms observations of one operation at iterations 0-9. -/
def c6recsB : List Rec := (List.range 10).map c6recB

theorem C6_amended_rolling_throughput_witness :
    (∀ r ∈ c6recsB, r.op = some "get" → r.iter.isSome = true →
      hasDur r = true) ∧
    windowSize c6recsB ≤ (opObservations c6recsB "get").length ∧
    throughputSeries c6recsB "get" = [((9 : Int), (1000 : ℚ))] := by
  have hdur : ∀ r ∈ c6recsB, r.op = some "get" → r.iter.isSome = true →
      hasDur r = true := by
    with_unfolding_all decide
  have hle : windowSize c6recsB ≤ (opObservations c6recsB "get").length := by
    with_unfolding_all decide
  have h := (C6_amended_rolling_throughput c6recsB "get" hdur).2.2.1 hle
  refine ⟨hdur, hle, ?_⟩
  rw [h]
  with_unfolding_all rfl
